import Mathlib

/-!
Verification of the `multimodal_mcp` provider-client core
(`src/multimodal_mcp/openai_client.py`).

The Python module is shallowly embedded below.  Conventions:

* Python byte strings are `List Nat` (each entry a byte value).
* Python `None` for an optional value is `Option.none`.
* Exceptions are modelled by the `PyExc` inductive; fallible code returns
  `Except PyExc`.
* The external provider (the OpenAI SDK call results), the secondary HTTP
  transport, and the standard-library JSON parser are oracles packaged in
  an `Env` record: the embedded operations are deterministic functions of
  the environment and their arguments.
* Time: `time.monotonic()` is modelled by a running clock (an `Int`,
  in milliseconds) threaded through each operation.  Only external calls
  advance the clock, by environment-specified amounts; pure in-process
  work is instantaneous in the model.
* Network activity is recorded as a list of `NetEvent`s so that
  "no network call happens" claims are statable.
-/

namespace M3cp

/-- Modelled from the spec: the error taxonomy of `errors.py` (the module is
imported by `openai_client.py` but is not under `src/`).  Spec section 7 fixes
three kinds: `InvalidArgument`, `Timeout`, `ProviderError`; the source refers
to them via the constants `INVALID_ARGUMENT`, `TIMEOUT`, `OPENAI_ERROR`. -/
inductive ErrCode where
  | INVALID_ARGUMENT
  | TIMEOUT
  | OPENAI_ERROR
  deriving DecidableEq, Repr

/-- Python exception values that can flow through the client.  The first
seven constructors are the transport/provider exception classes collected in
`_RETRYABLE` by `_openai_retry_exceptions` (httpx.TimeoutException,
httpx.HTTPError, httpx.HTTPStatusError - a subclass of HTTPError raised by
`raise_for_status` - and the four openai SDK classes).  `indexError`,
`jsonDecodeError` and `typeError` model the stdlib exceptions the extraction
code can raise.  `mcp` models `MCPError`.

Modelled from the spec (constructor `mcp` only): `MCPError` lives in
`errors.py`, which is not under `src/`; per spec sections 4.6 and 7 it is the
client's own error type carrying a kind, a human-readable message and the
original cause, distinct from the transport and provider exception classes. -/
inductive PyExc where
  | httpxTimeout (msg : String)
  | httpxHTTPError (msg : String)
  | httpxStatusError (status : Nat)
  | apiConnectionError (msg : String)
  | apiTimeoutError (msg : String)
  | rateLimitError (msg : String)
  | apiError (msg : String)
  | indexError (msg : String)
  | jsonDecodeError (msg : String)
  | typeError (msg : String)
  | otherError (tyName : String) (msg : String)
  | mcp (code : ErrCode) (message : String) (cause : Option PyExc)

/-- Modelled from the spec: `mcp_error(code, message, cause)` from `errors.py`
(not under `src/`) constructs the `MCPError` exception object. -/
def mcp_error (code : ErrCode) (message : String) (cause : Option PyExc) : PyExc :=
  PyExc.mcp code message cause

/-- Membership in the `_RETRYABLE` exception tuple, i.e. the
`retry_if_exception_type(_RETRYABLE)` predicate of `_retryable()`:
true exactly for httpx.TimeoutException, httpx.HTTPError (including its
subclass HTTPStatusError) and the four openai SDK transient classes. -/
def isRetryable : PyExc → Bool
  | PyExc.httpxTimeout _ => true
  | PyExc.httpxHTTPError _ => true
  | PyExc.httpxStatusError _ => true
  | PyExc.apiConnectionError _ => true
  | PyExc.apiTimeoutError _ => true
  | PyExc.rateLimitError _ => true
  | PyExc.apiError _ => true
  | _ => false

/-- `isinstance(exc, httpx.TimeoutException)`: the discriminator of the two
`except` clauses around every provider call. -/
def isHttpxTimeoutExc : PyExc → Bool
  | PyExc.httpxTimeout _ => true
  | _ => false

/-- `type(exc).__name__`. -/
def excTypeName : PyExc → String
  | PyExc.httpxTimeout _ => "TimeoutException"
  | PyExc.httpxHTTPError _ => "HTTPError"
  | PyExc.httpxStatusError _ => "HTTPStatusError"
  | PyExc.apiConnectionError _ => "APIConnectionError"
  | PyExc.apiTimeoutError _ => "APITimeoutError"
  | PyExc.rateLimitError _ => "RateLimitError"
  | PyExc.apiError _ => "APIError"
  | PyExc.indexError _ => "IndexError"
  | PyExc.jsonDecodeError _ => "JSONDecodeError"
  | PyExc.typeError _ => "TypeError"
  | PyExc.otherError tyName _ => tyName
  | PyExc.mcp _ _ _ => "MCPError"

/-- `str(exc)`. -/
def excStr : PyExc → String
  | PyExc.httpxTimeout m => m
  | PyExc.httpxHTTPError m => m
  | PyExc.httpxStatusError status => ("HTTP status error ") ++ toString status
  | PyExc.apiConnectionError m => m
  | PyExc.apiTimeoutError m => m
  | PyExc.rateLimitError m => m
  | PyExc.apiError m => m
  | PyExc.indexError m => m
  | PyExc.jsonDecodeError m => m
  | PyExc.typeError m => m
  | PyExc.otherError _ m => m
  | PyExc.mcp _ m _ => m

/-- Python values as they appear in request payload dictionaries. -/
inductive Value where
  | vStr (s : String)
  | vNat (n : Nat)
  | vRat (q : Rat)
  | vBool (b : Bool)
  | vBytes (bs : List Nat)
  | vList (items : List Value)
  | vDict (entries : List (String × Option Value))

/-- Python truthiness of a value. -/
def pyTruthy : Value → Bool
  | Value.vStr s => if s = "" then false else true
  | Value.vNat n => if n = 0 then false else true
  | Value.vRat q => if q = 0 then false else true
  | Value.vBool b => b
  | Value.vBytes bs => if bs = [] then false else true
  | Value.vList items => if items.isEmpty then false else true
  | Value.vDict entries => if entries.isEmpty then false else true

/-- Python truthiness of an optional value (`None` is falsy). -/
def truthyOptV : Option Value → Bool
  | none => false
  | some v => pyTruthy v

/-- Python truthiness of an optional string (`None` and `""` are falsy). -/
def strTruthy : Option String → Bool
  | none => false
  | some s => if s = "" then false else true

/-- First binding of a key in an association list (a Python dict built in
source order; all dicts built by this module have distinct keys). -/
def lookupKey (entries : List (String × Option Value)) (k : String) :
    Option (Option Value) :=
  match entries with
  | [] => none
  | kv :: rest => if kv.1 = k then some kv.2 else lookupKey rest k

/-- Python `dict.get(k)`: the value bound to `k`, or `None` when the key is
absent (a key explicitly bound to `None` is indistinguishable from absent). -/
def pyGet (entries : List (String × Option Value)) (k : String) : Option Value :=
  (lookupKey entries k).join

/-- `getattr(obj, f, None)` for an attribute modelled as
`Option (Option α)` (outer: attribute presence, inner: its value): the
attribute's value when present, else `None`. -/
def flattenAttr : Option (Option α) → Option α
  | none => none
  | some v => v

/-- The dict comprehension
`{key: value for key, value in params.items() if value is not None}`
shared by `analyze_image`, `generate_image` and `text_to_speech`. -/
def dropNone (params : List (String × Option Value)) : List (String × Option Value) :=
  params.filter (fun kv => kv.2.isSome)

/-- The standard base64 alphabet, index order. -/
def b64Alphabet : List Char :=
  ("ABCDEFGHIJKLMNOPQRSTUVWXYZabcdefghijklmnopqrstuvwxyz0123456789+/").toList

/-- Position of a character in a list, or `none`. -/
def charIndexFrom : List Char → Char → Nat → Option Nat
  | [], _, _ => none
  | a :: rest, c, i => if a = c then some i else charIndexFrom rest c (i + 1)

/-- Index of a character in the base64 alphabet. -/
def b64IndexOf (c : Char) : Option Nat := charIndexFrom b64Alphabet c 0

/-- Character of the base64 alphabet at an index. -/
def b64CharOf (n : Nat) : Char := b64Alphabet.getD n ('A')

/-- `base64.b64encode`, on groups of three bytes. -/
def b64encodeGroups : List Nat → List Char
  | [] => []
  | [a] =>
    let a := a % 256
    [b64CharOf (a / 4), b64CharOf (a % 4 * 16), '=', '=']
  | [a, b] =>
    let a := a % 256
    let b := b % 256
    [b64CharOf (a / 4), b64CharOf (a % 4 * 16 + b / 16), b64CharOf (b % 16 * 4), '=']
  | a :: b :: c :: rest =>
    let a := a % 256
    let b := b % 256
    let c := c % 256
    b64CharOf (a / 4) :: b64CharOf (a % 4 * 16 + b / 16) ::
      b64CharOf (b % 16 * 4 + c / 64) :: b64CharOf (c % 64) :: b64encodeGroups rest

/-- `base64.b64encode(bs).decode("ascii")`. -/
def b64encode (bs : List Nat) : String := String.mk (b64encodeGroups bs)

/-- `base64.b64decode`, on groups of four alphabet characters (after the
non-alphabet characters have been discarded, which is what the stdlib does
when `validate=False`).  Errors model `binascii.Error`. -/
def b64decodeGroups : List Char → Except String (List Nat)
  | [] => Except.ok []
  | a :: b :: c :: d :: rest =>
    match b64IndexOf a, b64IndexOf b with
    | some ia, some ib =>
      if c = '=' then
        if d = '=' ∧ rest = [] then Except.ok [ia * 4 + ib / 16]
        else Except.error ("Invalid base64-encoded string")
      else
        match b64IndexOf c with
        | some ic =>
          if d = '=' then
            if rest = [] then Except.ok [ia * 4 + ib / 16, ib % 16 * 16 + ic / 4]
            else Except.error ("Invalid base64-encoded string")
          else
            match b64IndexOf d with
            | some jd =>
              match b64decodeGroups rest with
              | Except.ok bs =>
                Except.ok ((ia * 4 + ib / 16) :: (ib % 16 * 16 + ic / 4) ::
                  (ic % 4 * 64 + jd) :: bs)
              | Except.error e => Except.error e
            | none => Except.error ("Invalid character")
        | none => Except.error ("Invalid character")
    | _, _ => Except.error ("Invalid character")
  | _ => Except.error ("Invalid base64-encoded string: wrong padding")

/-- `base64.b64decode` on a string. -/
def b64decode (s : String) : Except String (List Nat) :=
  b64decodeGroups (s.toList.filter (fun ch => ch = '=' ∨ (b64IndexOf ch).isSome))

/-- Modelled from the spec: the `Settings` configuration record of
`config.py` (imported by `openai_client.py` but not under `src/`).  Spec
section 6: a credential string, an optional custom endpoint, optional
organization/project identifiers and per-modality default model names.
Only the fields `openai_client.py` reads are modelled. -/
structure Settings where
  openai_api_key : Option String
  openai_base_url : Option String
  openai_org_id : Option String
  openai_project : Option String
  openai_model_vision : Option String
  openai_model_image : Option String
  openai_model_stt : Option String
  openai_model_tts : Option String

/-- `ImageAnalysisResult` dataclass. -/
structure ImageAnalysisResult where
  text : String
  json_data : Option Value
  duration_ms : Int

/-- `ImageGenerationResult` dataclass. -/
structure ImageGenerationResult where
  data : List Nat
  duration_ms : Int

/-- `TranscriptionResult` dataclass.  The source annotates `text` as `str`,
but at runtime it holds whatever
`getattr(response, "text", None) or response.get("text")` produced, which for
a mapping-shaped response may be any value or `None`; it is therefore
embedded as `Option Value`. -/
structure TranscriptionResult where
  text : Option Value
  segments : Option Value
  duration_ms : Int

/-- `SpeechResult` dataclass. -/
structure SpeechResult where
  data : List Nat
  duration_ms : Int

/-- One content item of a `responses.create` response
(`response.output[i].content[j]`). -/
structure AnalyzeContentItem where
  text : String

/-- One output item of a `responses.create` response (`response.output[i]`). -/
structure AnalyzeOutputItem where
  content : List AnalyzeContentItem

/-- A `responses.create` response: `output_text` is
`getattr(response, "output_text", None)` (absent and `None` coincide). -/
structure AnalyzeResponse where
  output_text : Option String
  output : List AnalyzeOutputItem

/-- One item of an `images.generate` response (`response.data[i]`).  For each
of the two fields, the outer `Option` is attribute presence (`hasattr`) and
the inner `Option` is the attribute's value (`None` or a string). -/
structure ImageItem where
  b64_json : Option (Option String)
  url : Option (Option String)

/-- An `images.generate` response. -/
structure ImagesResponse where
  data : List ImageItem

/-- An `audio.transcriptions.create` response, which providers return either
attribute-style or mapping-style.  In the `obj` form, `text` is the result of
`getattr(response, "text", None)`, and `segments` is `none` when the
attribute is absent (`hasattr` false) and `some v` when present with value
`v` (possibly `None`).  The `obj` form has no `.get` method and is not a
`dict`; the `dct` form is a `dict`. -/
inductive TranscribeResponse where
  | obj (text : Option Value) (segments : Option (Option Value))
  | dct (entries : List (String × Option Value))

/-- An `audio.speech.create` response, as probed by `_extract_binary`:
`isBytes` is `some bs` when the response object itself is a `bytes` value;
`content` and `readBytes` model the optional `.content` attribute and the
optional `.read()` method; `toBytes` is the outcome of a final
`bytes(response)` conversion (which may raise `TypeError`). -/
structure SpeechResponse where
  isBytes : Option (List Nat)
  content : Option (List Nat)
  readBytes : Option (List Nat)
  toBytes : Except String (List Nat)

/-- Result of the secondary `httpx.get` image download. -/
structure FetchResponse where
  status : Nat
  content : List Nat

/-- A recorded network interaction: a provider call (with the endpoint name
and the keyword arguments passed by this module) or the secondary HTTP GET. -/
inductive NetEvent where
  | providerCall (endpoint : String) (payload : List (String × Option Value))
  | httpGet (url : String)

/-- The external world: provider responses per retry attempt (0-based), the
secondary HTTP transport, the stdlib JSON parser (`json.loads`, whose error
is a `json.JSONDecodeError` message), and the time each external call takes
in milliseconds. -/
structure Env where
  analyzeResp : Nat → Except PyExc AnalyzeResponse
  imageResp : Nat → Except PyExc ImagesResponse
  transcribeResp : Nat → Except PyExc TranscribeResponse
  speechResp : Nat → Except PyExc SpeechResponse
  fetchUrl : Nat → String → Except PyExc FetchResponse
  jsonParse : String → Except String Value
  callDur : Nat → Nat
  fetchDur : Nat

/-- Outcome of one operation (or of one attempt): the Python return value or
exception, the network events issued, and the final clock value. -/
def OpOut (α : Type) : Type := Except PyExc α × List NetEvent × Int

/-- `OpenAIClient.__init__`: raises `MCPError(INVALID_ARGUMENT)` when the
credential is falsy (`None` or empty); otherwise constructs the SDK client
object (which performs no network activity), retaining the settings.  The
second component records the network events of construction (always none). -/
def OpenAIClient_init (settings : Settings) :
    Except PyExc Settings × List NetEvent :=
  if strTruthy settings.openai_api_key = false then
    (Except.error (mcp_error ErrCode.INVALID_ARGUMENT ("OPENAI_API_KEY is required") none), [])
  else
    (Except.ok settings, [])

/-- `OpenAIClient._require_model`: `model = override or default`; raises
`MCPError(INVALID_ARGUMENT, "Model not configured for <label>")` when the
result is falsy. -/
def require_model (override dflt : Option String) (label : String) :
    Except PyExc String :=
  let model := if strTruthy override then override else dflt
  if strTruthy model then Except.ok (model.getD "")
  else
    Except.error (mcp_error ErrCode.INVALID_ARGUMENT (("Model not configured for ") ++ label) none)

/-- The uniform pair of `except` clauses around every provider call:
`httpx.TimeoutException` becomes `MCPError(TIMEOUT, "OpenAI request timed
out: <str(exc)>")`, any other exception becomes
`MCPError(OPENAI_ERROR, "<opMsg>: <type(exc).__name__> - <str(exc)>")`;
both attach the original exception as the cause. -/
def wrap_call_exc (opMsg : String) (e : PyExc) : PyExc :=
  if isHttpxTimeoutExc e then
    mcp_error ErrCode.TIMEOUT (("OpenAI request timed out: ") ++ excStr e) (some e)
  else
    mcp_error ErrCode.OPENAI_ERROR (opMsg ++ (": ") ++ excTypeName e ++ (" - ") ++ excStr e) (some e)

/-- `tenacity.wait_exponential(multiplier=0.5, min=0.5, max=4)` in
milliseconds, as a function of the number of completed attempts. -/
def waitMs (completedAttempts : Nat) : Nat :=
  min (max (500 * 2 ^ completedAttempts) 500) 4000

/-- The `@_retryable()` decorator produced by
`retry(reraise=True, stop=stop_after_attempt(3), wait=wait_exponential(...),
retry=retry_if_exception_type(_RETRYABLE))`: run the body; on an exception
that is an instance of one of the `_RETRYABLE` classes, sleep and run it
again, for at most `fuel` attempts in total; with `reraise=True` the last
exception is re-raised unchanged.  Events of all attempts are concatenated
and the clock is threaded through (including the backoff sleeps). -/
def tenacityLoop (body : Nat → Int → OpOut α) : Nat → Nat → Int → OpOut α
  | 0, attempt, now => body attempt now
  | 1, attempt, now => body attempt now
  | Nat.succ (Nat.succ fuel), attempt, now =>
    match body attempt now with
    | (Except.ok a, evs, now2) => (Except.ok a, evs, now2)
    | (Except.error e, evs, now2) =>
      if isRetryable e then
        match tenacityLoop body (Nat.succ fuel) (attempt + 1) (now2 + (waitMs attempt : Int)) with
        | (r, evs2, now3) => (r, evs ++ evs2, now3)
      else (Except.error e, evs, now2)

/-- `analyze_image` lines 104-106: prefix the instruction with a language
directive when a target language is given (`if language:`). -/
def analyze_instruction (instruction : String) (language : Option String) : String :=
  if strTruthy language then
    ("Respond in ") ++ language.getD "" ++ (". ") ++ instruction
  else instruction

/-- `analyze_image` lines 107-112: the inline image part; the `detail` key is
added only when `detail` is truthy. -/
def analyze_image_part (image_bytes : List Nat) (detail : Option String) :
    List (String × Option Value) :=
  let base : List (String × Option Value) :=
    [(("type"), some (Value.vStr ("input_image"))),
     (("image_base64"), some (Value.vStr (b64encode image_bytes)))]
  if strTruthy detail then base ++ [(("detail"), detail.map Value.vStr)] else base

/-- `analyze_image` lines 113-116: the `content` list (text part then image
part). -/
def analyze_content (image_bytes : List Nat) (instruction : String)
    (detail language : Option String) : List Value :=
  [Value.vDict [(("type"), some (Value.vStr ("input_text"))),
                (("text"), some (Value.vStr (analyze_instruction instruction language)))],
   Value.vDict (analyze_image_part image_bytes detail)]

/-- `analyze_image` lines 121-128: the structured-output directive attached
when `json` format is requested. -/
def analyze_response_format_payload (json_schema : Option Value) : Value :=
  Value.vDict [(("type"), some (Value.vStr ("json_schema"))),
    (("json_schema"), some (Value.vDict
      [(("name"), some (Value.vStr ("image_analysis"))),
       (("schema"), json_schema),
       (("strict"), some (Value.vBool true))]))]

/-- `analyze_image` lines 131-137: the `responses.create` keyword arguments,
with `None`-valued entries dropped. -/
def analyze_params (model : String) (content : List Value)
    (max_output_tokens : Option Nat) (rfp : Option Value) :
    List (String × Option Value) :=
  dropNone
    [(("model"), some (Value.vStr model)),
     (("input"), some (Value.vList
       [Value.vDict [(("role"), some (Value.vStr ("user"))),
                     (("content"), some (Value.vList content))]])),
     (("max_output_tokens"), max_output_tokens.map Value.vNat),
     (("response_format"), rfp)]

/-- `analyze_image` lines 146-148: text extraction, `output_text` first, then
`response.output[0].content[0].text` (an `IndexError` escapes when either
list is empty). -/
def analyze_output_text (response : AnalyzeResponse) : Except PyExc String :=
  match response.output_text with
  | some t => Except.ok t
  | none =>
    match response.output with
    | [] => Except.error (PyExc.indexError ("list index out of range"))
    | item :: _ =>
      match item.content with
      | [] => Except.error (PyExc.indexError ("list index out of range"))
      | c :: _ => Except.ok c.text

/-- `generate_image` lines 169-178: the `images.generate` keyword arguments
with `None`-valued entries dropped; `output_format` is deliberately never
included. -/
def generate_params (model prompt : String) (size background quality : Option String) :
    List (String × Option Value) :=
  dropNone
    [(("model"), some (Value.vStr model)),
     (("prompt"), some (Value.vStr prompt)),
     (("size"), size.map Value.vStr),
     (("background"), background.map Value.vStr),
     (("quality"), quality.map Value.vStr)]

/-- Python `"True"` / `"False"`. -/
def pyBoolStr (b : Bool) : String := if b then ("True") else ("False")

/-- `generate_image` line 204: the f-string
`f"has_b64={has_b64}, b64_val={b64_val is not None if b64_val else False},
has_url={has_url}, url_val={url_val is not None if url_val else False}"`. -/
def generate_error_details (has_b64 : Bool) (b64_val : Option String)
    (has_url : Bool) (url_val : Option String) : String :=
  ("has_b64=") ++ pyBoolStr has_b64 ++
  (", b64_val=") ++ pyBoolStr (strTruthy b64_val) ++
  (", has_url=") ++ pyBoolStr has_url ++
  (", url_val=") ++ pyBoolStr (strTruthy url_val)

/-- `transcribe_audio` lines 224-230: the `audio.transcriptions.create`
keyword arguments.  Unlike the other three operations there is no
`is not None` filtering here: `language` and `prompt` are passed even when
they are `None`. -/
def transcribe_params (model : String) (audio_bytes : List Nat)
    (language prompt : Option String) (response_format : String) :
    List (String × Option Value) :=
  [(("model"), some (Value.vStr model)),
   (("file"), some (Value.vBytes audio_bytes)),
   (("language"), language.map Value.vStr),
   (("prompt"), prompt.map Value.vStr),
   (("response_format"), some (Value.vStr response_format))]

/-- `transcribe_audio` line 237: `getattr(response, "text", None) or
response.get("text")`.  For an attribute-style response with a falsy `text`,
the `or` falls through to `.get`, which attribute-style responses do not
have, so an `AttributeError` escapes. -/
def transcribe_text (response : TranscribeResponse) : Except PyExc (Option Value) :=
  match response with
  | TranscribeResponse.obj t _ =>
    if truthyOptV t then Except.ok t
    else Except.error (PyExc.otherError ("AttributeError") ("object has no attribute get"))
  | TranscribeResponse.dct entries => Except.ok (pyGet entries ("text"))

/-- `transcribe_audio` lines 238-242: `segments = None`; overwritten from the
attribute when `hasattr(response, "segments")`, else from `.get` when the
response is a `dict`.  Note that the `timestamps` argument plays no role. -/
def transcribe_segments (response : TranscribeResponse) : Option Value :=
  match response with
  | TranscribeResponse.obj _ segs =>
    match segs with
    | some v => v
    | none => none
  | TranscribeResponse.dct entries => pyGet entries ("segments")

/-- `text_to_speech` lines 257-264: the `audio.speech.create` keyword
arguments with `None`-valued entries dropped. -/
def tts_params (model voice_to_use text : String) (format : Option String)
    (speed : Option Rat) : List (String × Option Value) :=
  dropNone
    [(("model"), some (Value.vStr model)),
     (("voice"), some (Value.vStr voice_to_use)),
     (("input"), some (Value.vStr text)),
     (("response_format"), format.map Value.vStr),
     (("speed"), speed.map Value.vRat)]

/-- `_extract_binary`: raw bytes, then the `.content` attribute, then
`.read()`, then a final `bytes(response)` conversion (which raises
`TypeError` when the object is not convertible). -/
def extract_binary (response : SpeechResponse) : Except PyExc (List Nat) :=
  match response.isBytes with
  | some bs => Except.ok bs
  | none =>
    match response.content with
    | some c => Except.ok c
    | none =>
      match response.readBytes with
      | some d => Except.ok d
      | none =>
        match response.toBytes with
        | Except.ok bs => Except.ok bs
        | Except.error m => Except.error (PyExc.typeError m)

/-- One attempt of `OpenAIClient.analyze_image` (the decorated function's
body).  Mirrors lines 92-155: model resolution, instruction/payload shaping,
schema validation, the guarded `responses.create` call, duration measurement,
text extraction and optional JSON parsing. -/
def analyze_body (env : Env) (st : Settings) (image_bytes : List Nat)
    (instruction : String) (model_override : Option String)
    (response_format : String) (json_schema : Option Value)
    (max_output_tokens : Option Nat) (detail : Option String)
    (language : Option String) (attempt : Nat) (now0 : Int) :
    OpOut ImageAnalysisResult :=
  match require_model model_override st.openai_model_vision ("vision") with
  | Except.error e => (Except.error e, [], now0)
  | Except.ok model =>
    let content := analyze_content image_bytes instruction detail language
    let schema_check : Except PyExc (Option Value) :=
      if response_format = ("json") then
        if truthyOptV json_schema then
          Except.ok (some (analyze_response_format_payload json_schema))
        else
          Except.error (mcp_error ErrCode.INVALID_ARGUMENT ("json_schema is required for JSON responses") none)
      else Except.ok none
    match schema_check with
    | Except.error e => (Except.error e, [], now0)
    | Except.ok rfp =>
      let started := now0
      let params := analyze_params model content max_output_tokens rfp
      let ev := NetEvent.providerCall ("responses.create") params
      let now1 := now0 + (env.callDur attempt : Int)
      match env.analyzeResp attempt with
      | Except.error e =>
        (Except.error (wrap_call_exc ("OpenAI response error") e), [ev], now1)
      | Except.ok response =>
        let duration_ms := now1 - started
        match analyze_output_text response with
        | Except.error e => (Except.error e, [ev], now1)
        | Except.ok text =>
          if response_format = ("json") then
            match env.jsonParse text with
            | Except.error m =>
              (Except.error (mcp_error ErrCode.OPENAI_ERROR ("Model output was not valid JSON") (some (PyExc.jsonDecodeError m))), [ev], now1)
            | Except.ok v =>
              (Except.ok ⟨text, some v, duration_ms⟩, [ev], now1)
          else (Except.ok ⟨text, none, duration_ms⟩, [ev], now1)

/-- `OpenAIClient.analyze_image`, i.e. `analyze_body` under `@_retryable()`. -/
def analyze_image (env : Env) (st : Settings) (image_bytes : List Nat)
    (instruction : String) (model_override : Option String)
    (response_format : String) (json_schema : Option Value)
    (max_output_tokens : Option Nat) (detail : Option String)
    (language : Option String) : OpOut ImageAnalysisResult :=
  tenacityLoop
    (analyze_body env st image_bytes instruction model_override response_format
      json_schema max_output_tokens detail language) 3 0 0

/-- One attempt of `OpenAIClient.generate_image` (lines 158-207).  The
`started` sample is taken before the params dict is assembled; `duration_ms`
is computed right after the provider call returns; the b64/url extraction -
including the secondary `httpx.get` download and its `raise_for_status`
(which raises `HTTPStatusError` for any non-2xx status) - happens after the
duration is fixed and outside the `try` block, so its exceptions are not
wrapped.  The `if has_b64 and b64_val is not None` test collapses to a match
on `b64_val` because `b64_val` is set to `None` whenever `has_b64` is false
(and symmetrically for the url branch). -/
def generate_body (env : Env) (st : Settings) (prompt : String)
    (model_override size background quality output_format : Option String)
    (attempt : Nat) (now0 : Int) : OpOut ImageGenerationResult :=
  match require_model model_override st.openai_model_image ("image") with
  | Except.error e => (Except.error e, [], now0)
  | Except.ok model =>
    let started := now0
    let params := generate_params model prompt size background quality
    let ev := NetEvent.providerCall ("images.generate") params
    let now1 := now0 + (env.callDur attempt : Int)
    match env.imageResp attempt with
    | Except.error e =>
      (Except.error (wrap_call_exc ("OpenAI image generation error") e), [ev], now1)
    | Except.ok response =>
      let duration_ms := now1 - started
      match response.data with
      | [] => (Except.error (PyExc.indexError ("list index out of range")), [ev], now1)
      | item :: _ =>
        let has_b64 := item.b64_json.isSome
        let b64_val := if has_b64 then flattenAttr item.b64_json else none
        let has_url := item.url.isSome
        let url_val := if has_url then flattenAttr item.url else none
        match b64_val with
        | some s =>
          match b64decode s with
          | Except.error m =>
            (Except.error (PyExc.otherError ("binascii.Error") m), [ev], now1)
          | Except.ok image_data =>
            (Except.ok ⟨image_data, duration_ms⟩, [ev], now1)
        | none =>
          match url_val with
          | some u =>
            let ev2 := NetEvent.httpGet u
            let now2 := now1 + (env.fetchDur : Int)
            match env.fetchUrl attempt u with
            | Except.error e => (Except.error e, [ev, ev2], now2)
            | Except.ok fr =>
              if 200 ≤ fr.status ∧ fr.status < 300 then
                (Except.ok ⟨fr.content, duration_ms⟩, [ev, ev2], now2)
              else
                (Except.error (PyExc.httpxStatusError fr.status), [ev, ev2], now2)
          | none =>
            (Except.error (mcp_error ErrCode.OPENAI_ERROR (("No image data in response (") ++ generate_error_details has_b64 b64_val has_url url_val ++ (")")) none), [ev], now1)

/-- `OpenAIClient.generate_image` under `@_retryable()`. -/
def generate_image (env : Env) (st : Settings) (prompt : String)
    (model_override size background quality output_format : Option String) :
    OpOut ImageGenerationResult :=
  tenacityLoop
    (generate_body env st prompt model_override size background quality output_format)
    3 0 0

/-- One attempt of `OpenAIClient.transcribe_audio` (lines 210-243): model
resolution, `verbose_json`/`json` format selection, the in-memory file
attachment, the guarded `audio.transcriptions.create` call (whose keyword
arguments are passed without `None` filtering), duration measurement and
dual-shape text/segments extraction. -/
def transcribe_body (env : Env) (st : Settings) (audio_bytes : List Nat)
    (model_override language prompt : Option String) (timestamps : Bool)
    (attempt : Nat) (now0 : Int) : OpOut TranscriptionResult :=
  match require_model model_override st.openai_model_stt ("transcription") with
  | Except.error e => (Except.error e, [], now0)
  | Except.ok model =>
    let response_format := if timestamps then ("verbose_json") else ("json")
    let started := now0
    let params := transcribe_params model audio_bytes language prompt response_format
    let ev := NetEvent.providerCall ("audio.transcriptions.create") params
    let now1 := now0 + (env.callDur attempt : Int)
    match env.transcribeResp attempt with
    | Except.error e =>
      (Except.error (wrap_call_exc ("OpenAI transcription error") e), [ev], now1)
    | Except.ok response =>
      let duration_ms := now1 - started
      match transcribe_text response with
      | Except.error e => (Except.error e, [ev], now1)
      | Except.ok text =>
        let segments := transcribe_segments response
        (Except.ok ⟨text, segments, duration_ms⟩, [ev], now1)

/-- `OpenAIClient.transcribe_audio` under `@_retryable()`. -/
def transcribe_audio (env : Env) (st : Settings) (audio_bytes : List Nat)
    (model_override language prompt : Option String) (timestamps : Bool) :
    OpOut TranscriptionResult :=
  tenacityLoop
    (transcribe_body env st audio_bytes model_override language prompt timestamps)
    3 0 0

/-- One attempt of `OpenAIClient.text_to_speech` (lines 246-275): model
resolution, the `voice or "alloy"` default, the filtered
`audio.speech.create` keyword arguments, the guarded call, duration
measurement and `_extract_binary`. -/
def text_to_speech_body (env : Env) (st : Settings) (text : String)
    (model_override voice format : Option String) (speed : Option Rat)
    (attempt : Nat) (now0 : Int) : OpOut SpeechResult :=
  match require_model model_override st.openai_model_tts ("tts") with
  | Except.error e => (Except.error e, [], now0)
  | Except.ok model =>
    let started := now0
    let voice_to_use := if strTruthy voice then voice.getD "" else ("alloy")
    let params := tts_params model voice_to_use text format speed
    let ev := NetEvent.providerCall ("audio.speech.create") params
    let now1 := now0 + (env.callDur attempt : Int)
    match env.speechResp attempt with
    | Except.error e =>
      (Except.error (wrap_call_exc ("OpenAI TTS error") e), [ev], now1)
    | Except.ok response =>
      let duration_ms := now1 - started
      match extract_binary response with
      | Except.error e => (Except.error e, [ev], now1)
      | Except.ok data => (Except.ok ⟨data, duration_ms⟩, [ev], now1)

/-- `OpenAIClient.text_to_speech` under `@_retryable()`. -/
def text_to_speech (env : Env) (st : Settings) (text : String)
    (model_override voice format : Option String) (speed : Option Rat) :
    OpOut SpeechResult :=
  tenacityLoop (text_to_speech_body env st text model_override voice format speed) 3 0 0

/-- Events whose provider-call payload binds the key `"model"` to `m`
(HTTP GETs carry no payload and satisfy the predicate vacuously). -/
def eventModelIs (m : String) : NetEvent → Prop
  | NetEvent.providerCall _ payload =>
    lookupKey payload ("model") = some (some (Value.vStr m))
  | NetEvent.httpGet _ => True

/-- A settings record with a credential and all four per-modality default
models configured (used to instantiate the universally quantified theorems
below at concrete inputs). -/
def stOk : Settings :=
  ⟨some ("k"), none, none, none, some ("gpt-v"), some ("img-1"), some ("whisper"), some ("tts-1")⟩

/-- A settings record whose credential is absent. -/
def stNoKey : Settings :=
  ⟨none, none, none, none, some ("gpt-v"), some ("img-1"), some ("whisper"), some ("tts-1")⟩

/-- A settings record with a credential but no default model for any
modality. -/
def stNoModels : Settings :=
  ⟨some ("k"), none, none, none, none, none, none, none⟩

/-- A benign environment: every provider call succeeds on every attempt with
a fixed small response, every call takes 100 ms, the secondary image fetch
succeeds with status 200 in 50 ms, and JSON parsing succeeds. -/
def envBase : Env :=
  { analyzeResp := fun _ => Except.ok ⟨some ("hi"), []⟩
    imageResp := fun _ => Except.ok ⟨[⟨some (some ("TWFu")), some none⟩]⟩
    transcribeResp := fun _ => Except.ok (TranscribeResponse.dct
      [(("text"), some (Value.vStr ("hola"))), (("segments"), some (Value.vList []))])
    speechResp := fun _ => Except.ok ⟨some [1, 2, 3], none, none, Except.ok []⟩
    fetchUrl := fun _ _ => Except.ok ⟨200, [9, 8, 7]⟩
    jsonParse := fun s => Except.ok (Value.vStr s)
    callDur := fun _ => 100
    fetchDur := 50 }

/-- A transport whose vision provider call raises `httpx.TimeoutException`
on every attempt. -/
def envTimeout : Env :=
  { envBase with analyzeResp := fun _ => Except.error (PyExc.httpxTimeout ("t.o")) }

/-- A transport whose vision provider call raises `httpx.TimeoutException`
on the first two attempts and succeeds on the third. -/
def envFlaky : Env :=
  { envBase with analyzeResp := fun a =>
      if a < 2 then Except.error (PyExc.httpxTimeout ("t.o")) else Except.ok ⟨some ("hi"), []⟩ }

/-- An image response carrying only a URL (the `b64_json` attribute is
present but `None`), fetched successfully. -/
def envUrl : Env :=
  { envBase with imageResp := fun _ => Except.ok ⟨[⟨some none, some (some ("x.test/img"))⟩]⟩ }

/-- Like `envUrl` but the secondary fetch returns HTTP status 404. -/
def envUrl404 : Env :=
  { envUrl with fetchUrl := fun _ _ => Except.ok ⟨404, []⟩ }

/-- An image response with neither an inline payload nor a URL
(`b64_json` absent, `url` present but `None`). -/
def envNoData : Env :=
  { envBase with imageResp := fun _ => Except.ok ⟨[⟨none, some none⟩]⟩ }

/-- A vision response whose text is not valid JSON (the parser fails the way
`json.loads` reports a failure at the first character). -/
def envBadJson : Env :=
  { envBase with
      analyzeResp := fun _ => Except.ok ⟨some ("not json"), []⟩
      jsonParse := fun _ => Except.error ("Expecting value: line 1 column 1 (char 0)") }

/-- The payload `analyze_image` sends in `envBase`/`stOk` at the concrete
arguments used by the witness below. -/
def pWVision : List (String × Option Value) :=
  analyze_params ("gpt-v") (analyze_content [1] ("d") none none) none none

/-- The payload `generate_image` sends in `envBase`/`stOk` at the witness
arguments. -/
def pWImage : List (String × Option Value) :=
  generate_params ("img-1") ("cat") none none none

/-- The payload `transcribe_audio` sends in `envBase`/`stOk` at the witness
arguments. -/
def pWStt : List (String × Option Value) :=
  transcribe_params ("whisper") [5] none none ("json")

/-- The payload `text_to_speech` sends in `envBase`/`stOk` at the witness
arguments. -/
def pWTts : List (String × Option Value) :=
  tts_params ("tts-1") ("alloy") ("hey") none none

/-- A speech response that is not raw bytes, has neither a `.content`
attribute nor a `.read()` method, but converts successfully via
`bytes(response)` (e.g. a `bytearray` or a list of byte values). -/
def speechConvertibleOnly : SpeechResponse := ⟨none, none, none, Except.ok [7]⟩

/-- A small truthy JSON schema value for instantiating the json-format
theorems. -/
def scmW : Option Value := some (Value.vDict [(("type"), some (Value.vStr ("object")))])

/-! ## Infrastructure lemmas -/

/-- With fuel 1 the retry loop is a single attempt. -/
theorem tenacityLoop_one (body : Nat → Int → OpOut α) (attempt : Nat) (now : Int) :
    tenacityLoop body 1 attempt now = body attempt now := rfl

/-- Unrolling of the retry loop when at least two attempts remain. -/
theorem tenacityLoop_succ_succ (body : Nat → Int → OpOut α) (fuel attempt : Nat) (now : Int) :
    tenacityLoop body (fuel + 2) attempt now =
      match body attempt now with
      | (Except.ok a, evs, now2) => (Except.ok a, evs, now2)
      | (Except.error e, evs, now2) =>
        if isRetryable e then
          match tenacityLoop body (fuel + 1) (attempt + 1) (now2 + (waitMs attempt : Int)) with
          | (r, evs2, now3) => (r, evs ++ evs2, now3)
        else (Except.error e, evs, now2) := rfl

/-- An `MCPError` is never an instance of a `_RETRYABLE` class. -/
theorem isRetryable_mcp (c : ErrCode) (m : String) (o : Option PyExc) :
    isRetryable (PyExc.mcp c m o) = false := rfl

/-- Every event of the retry loop is an event of one of the attempts. -/
theorem tenacityLoop_events (body : Nat → Int → OpOut α) (P : NetEvent → Prop)
    (h : ∀ a n, ∀ ev ∈ (body a n).2.1, P ev) :
    ∀ (fuel attempt : Nat) (now : Int), ∀ ev ∈ (tenacityLoop body fuel attempt now).2.1, P ev
  | 0, attempt, now => h attempt now
  | 1, attempt, now => h attempt now
  | Nat.succ (Nat.succ f), attempt, now => by
    show ∀ ev ∈ (tenacityLoop body (f + 2) attempt now).2.1, P ev
    rw [tenacityLoop_succ_succ]
    intro ev hev
    split at hev
    · next a evs now2 heq =>
      exact h attempt now ev (by rw [heq]; exact hev)
    · next e evs now2 heq =>
      by_cases hr : isRetryable e
      · rw [if_pos hr] at hev
        revert hev
        split
        next r evs2 now3 heq2 =>
          intro hev
          rcases List.mem_append.mp hev with h1 | h2
          · exact h attempt now ev (by rw [heq]; exact h1)
          · exact tenacityLoop_events body P h (f + 1) (attempt + 1)
              (now2 + (waitMs attempt : Int)) ev (by rw [heq2]; exact h2)
      · rw [if_neg hr] at hev
        exact h attempt now ev (by rw [heq]; exact hev)

/-- When every attempt of the body raises the same retryable-or-not
exception, the retry loop surfaces exactly that exception (with
`reraise=True` the last exception is re-raised unchanged). -/
theorem tenacityLoop_const_error (body : Nat → Int → OpOut α) (e : PyExc)
    (h : ∀ a n, (body a n).1 = Except.error e) :
    ∀ (fuel attempt : Nat) (now : Int),
      (tenacityLoop body fuel attempt now).1 = Except.error e
  | 0, attempt, now => h attempt now
  | 1, attempt, now => h attempt now
  | Nat.succ (Nat.succ f), attempt, now => by
    show (tenacityLoop body (f + 2) attempt now).1 = Except.error e
    rw [tenacityLoop_succ_succ]
    rcases hb : body attempt now with ⟨r, evs, n2⟩
    have hr := h attempt now
    rw [hb] at hr
    rcases r with e2 | a2
    · simp only [Except.error.injEq] at hr
      simp only [hb, hr]
      by_cases hret : isRetryable e
      · rw [if_pos hret]
        rcases hloop : tenacityLoop body (f + 1) (attempt + 1) (n2 + (waitMs attempt : Int))
          with ⟨r2, evs2, n3⟩
        have h2 := tenacityLoop_const_error body e h (f + 1) (attempt + 1)
          (n2 + (waitMs attempt : Int))
        rw [hloop] at h2
        simpa [hloop] using h2
      · rw [if_neg hret]
    · exact absurd hr (by simp)

/-- The guarded accessor pattern
`val = getattr(item, f, None) if hasattr(item, f) else None` collapses to
the plain flattened attribute value: when the attribute is absent both sides
are `None`. -/
theorem isSome_guard_join (x : Option (Option α)) :
    (if x.isSome = true then flattenAttr x else none) = flattenAttr x := by
  cases x <;> simp [flattenAttr]

/-- An attribute whose flattened value is non-null is present. -/
theorem isSome_of_flattenAttr_some (x : Option (Option α)) (v : α)
    (h : flattenAttr x = some v) : x.isSome = true := by
  cases x <;> simp_all [flattenAttr]

/-- The error raised by `_require_model` is always
`MCPError(INVALID_ARGUMENT)` with the modality label in the message. -/
theorem require_model_error_shape (ov df : Option String) (l : String) (e : PyExc)
    (h : require_model ov df l = Except.error e) :
    e = PyExc.mcp ErrCode.INVALID_ARGUMENT (("Model not configured for ") ++ l) none := by
  unfold require_model at h
  split at h
  · simp_all
  · simp only [] at h
    split at h
    · simp_all
    · simp_all [mcp_error]

/-- The `"model"` entry survives the `None` filter and is the first key of
the vision payload. -/
theorem analyze_params_model (m : String) (c : List Value) (mot : Option Nat)
    (rfp : Option Value) :
    lookupKey (analyze_params m c mot rfp) ("model") = some (some (Value.vStr m)) := by
  simp [analyze_params, dropNone, List.filter, lookupKey]

/-- The `"model"` entry of the image-generation payload. -/
theorem generate_params_model (m p : String) (size bg q : Option String) :
    lookupKey (generate_params m p size bg q) ("model") = some (some (Value.vStr m)) := by
  simp [generate_params, dropNone, List.filter, lookupKey]

/-- The `"model"` entry of the transcription payload. -/
theorem transcribe_params_model (m : String) (ab : List Nat) (lang pr : Option String)
    (rf : String) :
    lookupKey (transcribe_params m ab lang pr rf) ("model") = some (some (Value.vStr m)) := by
  simp [transcribe_params, lookupKey]

/-- The `"model"` entry of the speech payload. -/
theorem tts_params_model (m v t : String) (f : Option String) (sp : Option Rat) :
    lookupKey (tts_params m v t f sp) ("model") = some (some (Value.vStr m)) := by
  simp [tts_params, dropNone, List.filter, lookupKey]

/-- Every provider call issued by one vision attempt carries the resolved
model. -/
theorem analyze_body_events_model (env : Env) (st : Settings) (ib : List Nat)
    (instr : String) (ov : Option String) (rf : String) (js : Option Value)
    (mot : Option Nat) (dt lg : Option String) (m : String)
    (hm : require_model ov st.openai_model_vision ("vision") = Except.ok m)
    (a : Nat) (n : Int) :
    ∀ ev ∈ (analyze_body env st ib instr ov rf js mot dt lg a n).2.1, eventModelIs m ev := by
  intro ev hev
  unfold analyze_body at hev
  rw [hm] at hev
  repeat' (first | split at hev | simp only [] at hev)
  all_goals
    first
      | exact absurd hev (List.not_mem_nil ev)
      | (simp only [List.mem_cons, List.not_mem_nil, or_false] at hev
         first
           | (obtain rfl | rfl := hev)
           | (obtain rfl := hev))
  all_goals simp_all [eventModelIs, analyze_params_model]

/-- Every provider call issued by one image-generation attempt carries the
resolved model. -/
theorem generate_body_events_model (env : Env) (st : Settings) (prompt : String)
    (ov size bg q ofmt : Option String) (m : String)
    (hm : require_model ov st.openai_model_image ("image") = Except.ok m)
    (a : Nat) (n : Int) :
    ∀ ev ∈ (generate_body env st prompt ov size bg q ofmt a n).2.1, eventModelIs m ev := by
  intro ev hev
  unfold generate_body at hev
  rw [hm] at hev
  repeat' (first | split at hev | simp only [] at hev)
  all_goals
    first
      | exact absurd hev (List.not_mem_nil ev)
      | (simp only [List.mem_cons, List.not_mem_nil, or_false] at hev
         first
           | (obtain rfl | rfl := hev)
           | (obtain rfl := hev))
  all_goals simp_all [eventModelIs, generate_params_model]

/-- Every provider call issued by one transcription attempt carries the
resolved model. -/
theorem transcribe_body_events_model (env : Env) (st : Settings) (ab : List Nat)
    (ov lang pr : Option String) (ts : Bool) (m : String)
    (hm : require_model ov st.openai_model_stt ("transcription") = Except.ok m)
    (a : Nat) (n : Int) :
    ∀ ev ∈ (transcribe_body env st ab ov lang pr ts a n).2.1, eventModelIs m ev := by
  intro ev hev
  unfold transcribe_body at hev
  rw [hm] at hev
  repeat' (first | split at hev | simp only [] at hev)
  all_goals
    first
      | exact absurd hev (List.not_mem_nil ev)
      | (simp only [List.mem_cons, List.not_mem_nil, or_false] at hev
         first
           | (obtain rfl | rfl := hev)
           | (obtain rfl := hev))
  all_goals simp_all [eventModelIs, transcribe_params_model]

/-- Every provider call issued by one speech attempt carries the resolved
model. -/
theorem tts_body_events_model (env : Env) (st : Settings) (t : String)
    (ov voice fmt : Option String) (sp : Option Rat) (m : String)
    (hm : require_model ov st.openai_model_tts ("tts") = Except.ok m)
    (a : Nat) (n : Int) :
    ∀ ev ∈ (text_to_speech_body env st t ov voice fmt sp a n).2.1, eventModelIs m ev := by
  intro ev hev
  unfold text_to_speech_body at hev
  rw [hm] at hev
  repeat' (first | split at hev | simp only [] at hev)
  all_goals
    first
      | exact absurd hev (List.not_mem_nil ev)
      | (simp only [List.mem_cons, List.not_mem_nil, or_false] at hev
         first
           | (obtain rfl | rfl := hev)
           | (obtain rfl := hev))
  all_goals simp_all [eventModelIs, tts_params_model]

/-! ## Claim theorems -/

/-- C1: the claim says a transient transport failure is retried up to 3
attempts, with success on a later attempt surfacing a result and exhaustion
surfacing the original error.  The code contradicts this: every operation
catches the transient exception inside the decorated function body and
re-raises it wrapped as `MCPError`, which is not an instance of any
`_RETRYABLE` class, so the `retry_if_exception_type` predicate never matches.
This theorem evaluates the code at the failing inputs: with a vision
transport that raises `httpx.TimeoutException` on every attempt, exactly one
provider call is made and a wrapped `MCPError(TIMEOUT)` (not the original
exception) surfaces; with a transport that fails transiently twice and would
succeed on the third attempt, the operation still fails after one call
instead of succeeding. -/
theorem C1_no_retry_on_transient :
    ((analyze_image envTimeout stOk [1, 2] ("d") none ("text") none none none none).1 =
        Except.error (PyExc.mcp ErrCode.TIMEOUT ("OpenAI request timed out: t.o")
          (some (PyExc.httpxTimeout ("t.o")))) ∧
      ((analyze_image envTimeout stOk [1, 2] ("d") none ("text") none none none none).2.1).length = 1) ∧
    ((analyze_image envFlaky stOk [1, 2] ("d") none ("text") none none none none).1 =
        Except.error (PyExc.mcp ErrCode.TIMEOUT ("OpenAI request timed out: t.o")
          (some (PyExc.httpxTimeout ("t.o")))) ∧
      ((analyze_image envFlaky stOk [1, 2] ("d") none ("text") none none none none).2.1).length = 1) :=
  ⟨⟨rfl, rfl⟩, ⟨rfl, rfl⟩⟩

/-- C4: constructing the client with an absent (missing or empty) credential
fails with `InvalidArgument` and records no network event; with a present
credential construction succeeds (so no such error is raised). -/
theorem C4_credential_guard (s : Settings) :
    (strTruthy s.openai_api_key = false →
      OpenAIClient_init s =
        (Except.error (PyExc.mcp ErrCode.INVALID_ARGUMENT ("OPENAI_API_KEY is required") none), [])) ∧
    (strTruthy s.openai_api_key = true → OpenAIClient_init s = (Except.ok s, [])) := by
  constructor
  · intro h
    simp [OpenAIClient_init, h, mcp_error]
  · intro h
    simp [OpenAIClient_init, h]

/-- Witness for C4 at concrete settings: a missing key (and an empty key)
fail with `InvalidArgument`; a present key constructs successfully. -/
theorem C4_credential_guard_witness :
    (strTruthy stNoKey.openai_api_key = false ∧
      OpenAIClient_init stNoKey =
        (Except.error (PyExc.mcp ErrCode.INVALID_ARGUMENT ("OPENAI_API_KEY is required") none), [])) ∧
    (strTruthy stOk.openai_api_key = true ∧ OpenAIClient_init stOk = (Except.ok stOk, [])) :=
  ⟨⟨rfl, (C4_credential_guard stNoKey).1 rfl⟩, ⟨rfl, (C4_credential_guard stOk).2 rfl⟩⟩

/-- C8: an image-analysis call requesting `json` format with an absent
schema fails with `InvalidArgument` (the schema message when a model is
configured, the model message otherwise) and performs no network call. -/
theorem C8_schema_required (env : Env) (st : Settings) (ib : List Nat)
    (instr : String) (ov : Option String) (mot : Option Nat) (dt lg : Option String) :
    ∃ msg, analyze_image env st ib instr ov ("json") none mot dt lg =
      (Except.error (PyExc.mcp ErrCode.INVALID_ARGUMENT msg none), [], 0) := by
  rcases h : require_model ov st.openai_model_vision ("vision") with e | m
  · refine ⟨("Model not configured for ") ++ ("vision"), ?_⟩
    have he := require_model_error_shape _ _ _ _ h
    subst he
    unfold analyze_image
    rw [show (3 : Nat) = 1 + 2 from rfl, tenacityLoop_succ_succ]
    simp [analyze_body, h, isRetryable] <;> rfl
  · refine ⟨("json_schema is required for JSON responses"), ?_⟩
    unfold analyze_image
    rw [show (3 : Nat) = 1 + 2 from rfl, tenacityLoop_succ_succ]
    simp [analyze_body, h, truthyOptV, isRetryable, mcp_error] <;> rfl

/-- C10 counterexample: a response that is not raw bytes, has no `.content`
attribute and no `.read()` method is nevertheless extracted successfully,
via the fourth `bytes(response)` fallback - so the returned bytes are not
produced by any of the three extraction routes the claim enumerates, and
extraction does not fail when none of the three apply. -/
theorem C10_extract_counterexample :
    extract_binary speechConvertibleOnly = Except.ok [7] ∧
    speechConvertibleOnly.isBytes = none ∧
    speechConvertibleOnly.content = none ∧
    speechConvertibleOnly.readBytes = none :=
  ⟨rfl, rfl, rfl, rfl⟩

/-- C10 amended: extraction tries, in priority order, raw bytes, the
`.content` attribute, a readable stream, and then a plain `bytes(response)`
conversion; it fails (with `TypeError`) only when none of the three apply
and the final conversion also fails. -/
theorem C10_extract_priority_amended (r : SpeechResponse) :
    (∀ bs, r.isBytes = some bs → extract_binary r = Except.ok bs) ∧
    (∀ c, r.isBytes = none → r.content = some c → extract_binary r = Except.ok c) ∧
    (∀ d, r.isBytes = none → r.content = none → r.readBytes = some d →
      extract_binary r = Except.ok d) ∧
    (∀ bs, r.isBytes = none → r.content = none → r.readBytes = none →
      r.toBytes = Except.ok bs → extract_binary r = Except.ok bs) ∧
    (∀ msg, r.isBytes = none → r.content = none → r.readBytes = none →
      r.toBytes = Except.error msg →
      extract_binary r = Except.error (PyExc.typeError msg)) := by
  refine ⟨?_, ?_, ?_, ?_, ?_⟩
  · intro bs h1
    simp [extract_binary, h1]
  · intro c h1 h2
    simp [extract_binary, h1, h2]
  · intro d h1 h2 h3
    simp [extract_binary, h1, h2, h3]
  · intro bs h1 h2 h3 h4
    simp [extract_binary, h1, h2, h3, h4]
  · intro msg h1 h2 h3 h4
    simp [extract_binary, h1, h2, h3, h4]

/-- Witness for the amended C10 at one concrete response per priority
level. -/
theorem C10_extract_priority_amended_witness :
    ((⟨some [1], some [2], some [3], Except.ok [4]⟩ : SpeechResponse).isBytes = some [1] ∧
      extract_binary ⟨some [1], some [2], some [3], Except.ok [4]⟩ = Except.ok [1]) ∧
    (extract_binary ⟨none, some [2], some [3], Except.ok [4]⟩ = Except.ok [2]) ∧
    (extract_binary ⟨none, none, some [3], Except.ok [4]⟩ = Except.ok [3]) ∧
    (extract_binary ⟨none, none, none, Except.ok [4]⟩ = Except.ok [4]) ∧
    (extract_binary ⟨none, none, none, Except.error ("cannot convert")⟩ =
      Except.error (PyExc.typeError ("cannot convert"))) :=
  ⟨⟨rfl, (C10_extract_priority_amended _).1 [1] rfl⟩,
   (C10_extract_priority_amended _).2.1 [2] rfl rfl,
   (C10_extract_priority_amended _).2.2.1 [3] rfl rfl rfl,
   (C10_extract_priority_amended _).2.2.2.1 [4] rfl rfl rfl rfl,
   (C10_extract_priority_amended _).2.2.2.2 ("cannot convert") rfl rfl rfl rfl⟩

/-- C5 counterexample: at a concrete transcription call with absent
`language` and `prompt`, the outgoing keyword-argument payload of the
provider call contains both keys, bound to null - the claim that absent
optional fields are never sent (for every one of the four operations) is
false for `transcribe_audio`. -/
theorem C5_null_fields_counterexample :
    (transcribe_audio envBase stOk [5] none none none false).2.1 =
      [NetEvent.providerCall ("audio.transcriptions.create")
        [(("model"), some (Value.vStr ("whisper"))),
         (("file"), some (Value.vBytes [5])),
         (("language"), none),
         (("prompt"), none),
         (("response_format"), some (Value.vStr ("json")))]] ∧
    lookupKey (transcribe_params ("whisper") [5] none none ("json")) ("language") = some none ∧
    lookupKey (transcribe_params ("whisper") [5] none none ("json")) ("prompt") = some none :=
  ⟨rfl, rfl, rfl⟩

/-- C5 amended: in `analyze_image`, `generate_image` and `text_to_speech`
every absent optional field is omitted from the outgoing payload (and an
output-format key is never sent by image generation at all), but
`transcribe_audio` always passes the `language` and `prompt` keys, bound to
null when the parameters are absent. -/
theorem C5_payload_omission_amended :
    (∀ m c rfp, lookupKey (analyze_params m c none rfp) ("max_output_tokens") = none) ∧
    (∀ m c mot, lookupKey (analyze_params m c mot none) ("response_format") = none) ∧
    (∀ ib, lookupKey (analyze_image_part ib none) ("detail") = none) ∧
    (∀ m p bg q, lookupKey (generate_params m p none bg q) ("size") = none) ∧
    (∀ m p s q, lookupKey (generate_params m p s none q) ("background") = none) ∧
    (∀ m p s bg, lookupKey (generate_params m p s bg none) ("quality") = none) ∧
    (∀ m p s bg q, lookupKey (generate_params m p s bg q) ("output_format") = none ∧
      lookupKey (generate_params m p s bg q) ("format") = none) ∧
    (∀ m v t sp, lookupKey (tts_params m v t none sp) ("response_format") = none) ∧
    (∀ m v t f, lookupKey (tts_params m v t f none) ("speed") = none) ∧
    (∀ m ab rf, lookupKey (transcribe_params m ab none none rf) ("language") = some none ∧
      lookupKey (transcribe_params m ab none none rf) ("prompt") = some none) := by
  refine ⟨?_, ?_, ?_, ?_, ?_, ?_, ?_, ?_, ?_, ?_⟩
  · intro m c rfp
    cases rfp <;> simp [analyze_params, dropNone, List.filter, lookupKey]
  · intro m c mot
    cases mot <;> simp [analyze_params, dropNone, List.filter, lookupKey]
  · intro ib
    simp [analyze_image_part, strTruthy, lookupKey]
  · intro m p bg q
    cases bg <;> cases q <;> simp [generate_params, dropNone, List.filter, lookupKey]
  · intro m p s q
    cases s <;> cases q <;> simp [generate_params, dropNone, List.filter, lookupKey]
  · intro m p s bg
    cases s <;> cases bg <;> simp [generate_params, dropNone, List.filter, lookupKey]
  · intro m p s bg q
    cases s <;> cases bg <;> cases q <;>
      simp [generate_params, dropNone, List.filter, lookupKey]
  · intro m v t sp
    cases sp <;> simp [tts_params, dropNone, List.filter, lookupKey]
  · intro m v t f
    cases f <;> simp [tts_params, dropNone, List.filter, lookupKey]
  · intro m ab rf
    simp [transcribe_params, lookupKey]

/-- C6 counterexample: a transcription call made with `timestamps = false`
against a provider response that nevertheless carries a segments field
returns a non-null `segments` - contradicting the claim that the result's
segments field is null in every call where timestamps were not requested.
(The extraction at lines 238-242 never consults the `timestamps` flag.) -/
theorem C6_segments_counterexample :
    (transcribe_audio envBase stOk [5] none none none false).1 =
      Except.ok ⟨some (Value.vStr ("hola")), some (Value.vList []), 100⟩ ∧
    some (Value.vList []) ≠ (none : Option Value) :=
  ⟨rfl, by simp⟩

/-- C6 amended: the result's segments field mirrors the provider response's
segments field - the attribute value when the attribute is present, else the
mapping entry when the response is a dict, else null - independently of
whether timestamps were requested (the `timestamps` flag only selects the
requested response format). -/
theorem C6_segments_mirror_provider (env : Env) (st : Settings) (ab : List Nat)
    (ov lang pr : Option String) (ts : Bool) (m : String)
    (resp : TranscribeResponse) (tx : Option Value)
    (hm : require_model ov st.openai_model_stt ("transcription") = Except.ok m)
    (hresp : env.transcribeResp 0 = Except.ok resp)
    (htext : transcribe_text resp = Except.ok tx) :
    (transcribe_audio env st ab ov lang pr ts).1 =
      Except.ok ⟨tx, transcribe_segments resp, (env.callDur 0 : Int)⟩ := by
  unfold transcribe_audio
  rw [show (3 : Nat) = 1 + 2 from rfl, tenacityLoop_succ_succ]
  simp [transcribe_body, hm, hresp, htext]

/-- Witness for the amended C6: with timestamps requested the same provider
segments value is returned; the hypotheses are discharged at the concrete
environment. -/
theorem C6_segments_mirror_provider_witness :
    (transcribe_audio envBase stOk [5] none none none true).1 =
      Except.ok ⟨some (Value.vStr ("hola")), some (Value.vList []), 100⟩ :=
  C6_segments_mirror_provider envBase stOk [5] none none none true ("whisper") _ _ rfl rfl rfl

/-- C7: in a json-format image-analysis call whose provider call succeeds
and whose extracted text fails to parse, the operation fails with
`ProviderError` (`OPENAI_ERROR`, not `INVALID_ARGUMENT`) carrying the
original `JSONDecodeError` as cause; when the text parses, the parsed value
is returned in the result's `json_data` field. -/
theorem C7_json_parse_classification (env : Env) (st : Settings) (ib : List Nat)
    (instr : String) (ov : Option String) (js : Option Value) (mot : Option Nat)
    (dt lg : Option String) (m : String) (resp : AnalyzeResponse) (t : String)
    (hm : require_model ov st.openai_model_vision ("vision") = Except.ok m)
    (hjs : truthyOptV js = true)
    (hresp : env.analyzeResp 0 = Except.ok resp)
    (htext : analyze_output_text resp = Except.ok t) :
    (∀ msg, env.jsonParse t = Except.error msg →
      (analyze_image env st ib instr ov ("json") js mot dt lg).1 =
        Except.error (PyExc.mcp ErrCode.OPENAI_ERROR ("Model output was not valid JSON")
          (some (PyExc.jsonDecodeError msg)))) ∧
    (∀ v, env.jsonParse t = Except.ok v →
      (analyze_image env st ib instr ov ("json") js mot dt lg).1 =
        Except.ok ⟨t, some v, (env.callDur 0 : Int)⟩) := by
  constructor
  · intro msg hparse
    unfold analyze_image
    rw [show (3 : Nat) = 1 + 2 from rfl, tenacityLoop_succ_succ]
    simp [analyze_body, hm, hjs, hresp, htext, hparse, isRetryable, mcp_error]
  · intro v hparse
    unfold analyze_image
    rw [show (3 : Nat) = 1 + 2 from rfl, tenacityLoop_succ_succ]
    simp [analyze_body, hm, hjs, hresp, htext, hparse, mcp_error]

/-- Witness for C7: a malformed model output fails with `OPENAI_ERROR` and
the parse error attached; a well-formed one puts the parsed value into
`json_data`. -/
theorem C7_json_parse_classification_witness :
    (analyze_image envBadJson stOk [1] ("d") none ("json") scmW none none none).1 =
      Except.error (PyExc.mcp ErrCode.OPENAI_ERROR ("Model output was not valid JSON")
        (some (PyExc.jsonDecodeError ("Expecting value: line 1 column 1 (char 0)")))) ∧
    (analyze_image envBase stOk [1] ("d") none ("json") scmW none none none).1 =
      Except.ok ⟨("hi"), some (Value.vStr ("hi")), 100⟩ :=
  ⟨(C7_json_parse_classification envBadJson stOk [1] ("d") none scmW none none none
      ("gpt-v") _ ("not json") rfl rfl rfl rfl).1 _ rfl,
   (C7_json_parse_classification envBase stOk [1] ("d") none scmW none none none
      ("gpt-v") _ ("hi") rfl rfl rfl rfl).2 _ rfl⟩

/-- C2: image-generation response extraction.  When an inline base64 payload
is present (attribute present and non-null) the result's bytes are its
base64-decoded value; else when a URL is present the result's bytes are the
body of the secondary HTTP fetch, which raises `HTTPStatusError` for any
non-2xx status; when neither field carries a value the operation fails with
`ProviderError` whose message records the presence/absence of both
fields. -/
theorem C2_generation_extraction (env : Env) (st : Settings) (prompt : String)
    (ov size bg q ofmt : Option String) (m : String) (resp : ImagesResponse)
    (item : ImageItem) (rest : List ImageItem)
    (hm : require_model ov st.openai_model_image ("image") = Except.ok m)
    (hresp : ∀ a, env.imageResp a = Except.ok resp)
    (hdata : resp.data = item :: rest) :
    (∀ s bs, flattenAttr item.b64_json = some s → b64decode s = Except.ok bs →
      (generate_image env st prompt ov size bg q ofmt).1 =
        Except.ok ⟨bs, (env.callDur 0 : Int)⟩) ∧
    (∀ u fr, flattenAttr item.b64_json = none → flattenAttr item.url = some u →
      (∀ a, env.fetchUrl a u = Except.ok fr) →
      ((200 ≤ fr.status ∧ fr.status < 300 →
        (generate_image env st prompt ov size bg q ofmt).1 =
          Except.ok ⟨fr.content, (env.callDur 0 : Int)⟩) ∧
       (¬ (200 ≤ fr.status ∧ fr.status < 300) →
        (generate_image env st prompt ov size bg q ofmt).1 =
          Except.error (PyExc.httpxStatusError fr.status)))) ∧
    (flattenAttr item.b64_json = none → flattenAttr item.url = none →
      (generate_image env st prompt ov size bg q ofmt).1 =
        Except.error (PyExc.mcp ErrCode.OPENAI_ERROR
          (("No image data in response (") ++
            generate_error_details item.b64_json.isSome none item.url.isSome none ++ (")"))
          none)) := by
  refine ⟨?_, ?_, ?_⟩
  · intro s bs hjoin hdec
    unfold generate_image
    rw [show (3 : Nat) = 1 + 2 from rfl, tenacityLoop_succ_succ]
    simp [generate_body, hm, hresp 0, hdata, isSome_of_flattenAttr_some _ _ hjoin, hjoin, hdec]
  · intro u fr hjoin hurl hfetch
    constructor
    · intro hst
      unfold generate_image
      rw [show (3 : Nat) = 1 + 2 from rfl, tenacityLoop_succ_succ]
      simp [generate_body, hm, hresp 0, hdata, isSome_of_flattenAttr_some _ _ hurl,
        isSome_guard_join, hjoin, hurl, hfetch 0, hst]
    · intro hst
      have hbody : ∀ a n, (generate_body env st prompt ov size bg q ofmt a n).1 =
          Except.error (PyExc.httpxStatusError fr.status) := by
        intro a n
        simp [generate_body, hm, hresp a, hdata, isSome_of_flattenAttr_some _ _ hurl,
          isSome_guard_join, hjoin, hurl, hfetch a, hst]
      exact tenacityLoop_const_error _ _ hbody 3 0 0
  · intro hjoin hurl
    unfold generate_image
    rw [show (3 : Nat) = 1 + 2 from rfl, tenacityLoop_succ_succ]
    simp [generate_body, hm, hresp 0, hdata, isSome_guard_join, hjoin, hurl, isRetryable,
      mcp_error]

/-- Witness for C2 at concrete environments: base64 item decodes, URL item
is fetched, a 404 fetch raises, and an empty item yields the diagnosable
`ProviderError`. -/
theorem C2_generation_extraction_witness :
    (generate_image envBase stOk ("cat") none none none none none).1 =
      Except.ok ⟨[77, 97, 110], 100⟩ ∧
    (generate_image envUrl stOk ("cat") none none none none none).1 =
      Except.ok ⟨[9, 8, 7], 100⟩ ∧
    (generate_image envUrl404 stOk ("cat") none none none none none).1 =
      Except.error (PyExc.httpxStatusError 404) ∧
    (generate_image envNoData stOk ("cat") none none none none none).1 =
      Except.error (PyExc.mcp ErrCode.OPENAI_ERROR
        ("No image data in response (has_b64=False, b64_val=False, has_url=True, url_val=False)")
        none) :=
  ⟨(C2_generation_extraction envBase stOk ("cat") none none none none none ("img-1") _ _ _
      rfl (fun _ => rfl) rfl).1 ("TWFu") [77, 97, 110] rfl rfl,
   ((C2_generation_extraction envUrl stOk ("cat") none none none none none ("img-1") _ _ _
      rfl (fun _ => rfl) rfl).2.1 ("x.test/img") ⟨200, [9, 8, 7]⟩ rfl rfl
      (fun _ => rfl)).1 (by decide),
   ((C2_generation_extraction envUrl404 stOk ("cat") none none none none none ("img-1") _ _ _
      rfl (fun _ => rfl) rfl).2.1 ("x.test/img") ⟨404, []⟩ rfl rfl
      (fun _ => rfl)).2 (by decide),
   (C2_generation_extraction envNoData stOk ("cat") none none none none none ("img-1") _ _ _
      rfl (fun _ => rfl) rfl).2.2 rfl rfl⟩

/-- C3: the effective model of every call is the non-empty per-call override,
else the configured default for the modality; when both are absent the
operation fails with `InvalidArgument` naming the modality label
("vision", "image", "transcription", "tts") with no network event and with
the clock untouched; and every provider call any operation issues carries
the resolved model in its payload. -/
theorem C3_model_resolution :
    (∀ (ov df : Option String) (label : String), strTruthy ov = true →
      require_model ov df label = Except.ok (ov.getD "")) ∧
    (∀ (ov df : Option String) (label : String), strTruthy ov = false →
      strTruthy df = true → require_model ov df label = Except.ok (df.getD "")) ∧
    (∀ (ov df : Option String) (label : String), strTruthy ov = false →
      strTruthy df = false →
      require_model ov df label = Except.error
        (PyExc.mcp ErrCode.INVALID_ARGUMENT (("Model not configured for ") ++ label) none)) ∧
    (∀ (env : Env) (st : Settings) (ib : List Nat) (instr : String) (ov : Option String)
      (rf : String) (js : Option Value) (mot : Option Nat) (dt lg : Option String),
      strTruthy ov = false → strTruthy st.openai_model_vision = false →
      analyze_image env st ib instr ov rf js mot dt lg =
        (Except.error (PyExc.mcp ErrCode.INVALID_ARGUMENT
          ("Model not configured for vision") none), [], 0)) ∧
    (∀ (env : Env) (st : Settings) (prompt : String) (ov size bg q ofmt : Option String),
      strTruthy ov = false → strTruthy st.openai_model_image = false →
      generate_image env st prompt ov size bg q ofmt =
        (Except.error (PyExc.mcp ErrCode.INVALID_ARGUMENT
          ("Model not configured for image") none), [], 0)) ∧
    (∀ (env : Env) (st : Settings) (ab : List Nat) (ov lang pr : Option String) (ts : Bool),
      strTruthy ov = false → strTruthy st.openai_model_stt = false →
      transcribe_audio env st ab ov lang pr ts =
        (Except.error (PyExc.mcp ErrCode.INVALID_ARGUMENT
          ("Model not configured for transcription") none), [], 0)) ∧
    (∀ (env : Env) (st : Settings) (t : String) (ov voice fmt : Option String) (sp : Option Rat),
      strTruthy ov = false → strTruthy st.openai_model_tts = false →
      text_to_speech env st t ov voice fmt sp =
        (Except.error (PyExc.mcp ErrCode.INVALID_ARGUMENT
          ("Model not configured for tts") none), [], 0)) ∧
    (∀ (env : Env) (st : Settings) (ib : List Nat) (instr : String) (ov : Option String)
      (rf : String) (js : Option Value) (mot : Option Nat) (dt lg : Option String)
      (m ep : String) (p : List (String × Option Value)),
      require_model ov st.openai_model_vision ("vision") = Except.ok m →
      NetEvent.providerCall ep p ∈ (analyze_image env st ib instr ov rf js mot dt lg).2.1 →
      lookupKey p ("model") = some (some (Value.vStr m))) ∧
    (∀ (env : Env) (st : Settings) (prompt : String) (ov size bg q ofmt : Option String)
      (m ep : String) (p : List (String × Option Value)),
      require_model ov st.openai_model_image ("image") = Except.ok m →
      NetEvent.providerCall ep p ∈ (generate_image env st prompt ov size bg q ofmt).2.1 →
      lookupKey p ("model") = some (some (Value.vStr m))) ∧
    (∀ (env : Env) (st : Settings) (ab : List Nat) (ov lang pr : Option String) (ts : Bool)
      (m ep : String) (p : List (String × Option Value)),
      require_model ov st.openai_model_stt ("transcription") = Except.ok m →
      NetEvent.providerCall ep p ∈ (transcribe_audio env st ab ov lang pr ts).2.1 →
      lookupKey p ("model") = some (some (Value.vStr m))) ∧
    (∀ (env : Env) (st : Settings) (t : String) (ov voice fmt : Option String) (sp : Option Rat)
      (m ep : String) (p : List (String × Option Value)),
      require_model ov st.openai_model_tts ("tts") = Except.ok m →
      NetEvent.providerCall ep p ∈ (text_to_speech env st t ov voice fmt sp).2.1 →
      lookupKey p ("model") = some (some (Value.vStr m))) := by
  refine ⟨?_, ?_, ?_, ?_, ?_, ?_, ?_, ?_, ?_, ?_, ?_⟩
  · intro ov df label h1
    unfold require_model
    simp [h1]
  · intro ov df label h1 h2
    unfold require_model
    simp [h1, h2]
  · intro ov df label h1 h2
    unfold require_model
    simp [h1, h2, mcp_error]
  · intro env st ib instr ov rf js mot dt lg h1 h2
    have h : require_model ov st.openai_model_vision ("vision") = Except.error
        (PyExc.mcp ErrCode.INVALID_ARGUMENT (("Model not configured for ") ++ ("vision")) none) := by
      unfold require_model
      simp [h1, h2, mcp_error]
    unfold analyze_image
    rw [show (3 : Nat) = 1 + 2 from rfl, tenacityLoop_succ_succ]
    simp [analyze_body, h, isRetryable] <;> rfl
  · intro env st prompt ov size bg q ofmt h1 h2
    have h : require_model ov st.openai_model_image ("image") = Except.error
        (PyExc.mcp ErrCode.INVALID_ARGUMENT (("Model not configured for ") ++ ("image")) none) := by
      unfold require_model
      simp [h1, h2, mcp_error]
    unfold generate_image
    rw [show (3 : Nat) = 1 + 2 from rfl, tenacityLoop_succ_succ]
    simp [generate_body, h, isRetryable] <;> rfl
  · intro env st ab ov lang pr ts h1 h2
    have h : require_model ov st.openai_model_stt ("transcription") = Except.error
        (PyExc.mcp ErrCode.INVALID_ARGUMENT
          (("Model not configured for ") ++ ("transcription")) none) := by
      unfold require_model
      simp [h1, h2, mcp_error]
    unfold transcribe_audio
    rw [show (3 : Nat) = 1 + 2 from rfl, tenacityLoop_succ_succ]
    simp [transcribe_body, h, isRetryable] <;> rfl
  · intro env st t ov voice fmt sp h1 h2
    have h : require_model ov st.openai_model_tts ("tts") = Except.error
        (PyExc.mcp ErrCode.INVALID_ARGUMENT (("Model not configured for ") ++ ("tts")) none) := by
      unfold require_model
      simp [h1, h2, mcp_error]
    unfold text_to_speech
    rw [show (3 : Nat) = 1 + 2 from rfl, tenacityLoop_succ_succ]
    simp [text_to_speech_body, h, isRetryable] <;> rfl
  · intro env st ib instr ov rf js mot dt lg m ep p hm hmem
    exact tenacityLoop_events _ (eventModelIs m)
      (analyze_body_events_model env st ib instr ov rf js mot dt lg m hm) 3 0 0
      (NetEvent.providerCall ep p) hmem
  · intro env st prompt ov size bg q ofmt m ep p hm hmem
    exact tenacityLoop_events _ (eventModelIs m)
      (generate_body_events_model env st prompt ov size bg q ofmt m hm) 3 0 0
      (NetEvent.providerCall ep p) hmem
  · intro env st ab ov lang pr ts m ep p hm hmem
    exact tenacityLoop_events _ (eventModelIs m)
      (transcribe_body_events_model env st ab ov lang pr ts m hm) 3 0 0
      (NetEvent.providerCall ep p) hmem
  · intro env st t ov voice fmt sp m ep p hm hmem
    exact tenacityLoop_events _ (eventModelIs m)
      (tts_body_events_model env st t ov voice fmt sp m hm) 3 0 0
      (NetEvent.providerCall ep p) hmem

/-- Witness for C3: each resolution rule and each operation's
missing-model failure, plus the resolved-model payload entry, at concrete
inputs. -/
theorem C3_model_resolution_witness :
    require_model (some ("m1")) (some ("m2")) ("vision") = Except.ok ("m1") ∧
    require_model none (some ("m2")) ("vision") = Except.ok ("m2") ∧
    require_model (some ("")) none ("tts") =
      Except.error (PyExc.mcp ErrCode.INVALID_ARGUMENT ("Model not configured for tts") none) ∧
    analyze_image envBase stNoModels [1] ("d") none ("text") none none none none =
      (Except.error (PyExc.mcp ErrCode.INVALID_ARGUMENT
        ("Model not configured for vision") none), [], 0) ∧
    generate_image envBase stNoModels ("cat") none none none none none =
      (Except.error (PyExc.mcp ErrCode.INVALID_ARGUMENT
        ("Model not configured for image") none), [], 0) ∧
    transcribe_audio envBase stNoModels [5] none none none false =
      (Except.error (PyExc.mcp ErrCode.INVALID_ARGUMENT
        ("Model not configured for transcription") none), [], 0) ∧
    text_to_speech envBase stNoModels ("hey") none none none none =
      (Except.error (PyExc.mcp ErrCode.INVALID_ARGUMENT
        ("Model not configured for tts") none), [], 0) ∧
    lookupKey pWVision ("model") = some (some (Value.vStr ("gpt-v"))) ∧
    lookupKey pWImage ("model") = some (some (Value.vStr ("img-1"))) ∧
    lookupKey pWStt ("model") = some (some (Value.vStr ("whisper"))) ∧
    lookupKey pWTts ("model") = some (some (Value.vStr ("tts-1"))) := by
  obtain ⟨c1, c2, c3, c4, c5, c6, c7, c8, c9, c10, c11⟩ := C3_model_resolution
  refine ⟨c1 _ _ _ rfl, c2 _ _ _ rfl rfl, c3 _ _ _ rfl rfl,
    c4 envBase stNoModels [1] ("d") none ("text") none none none none rfl rfl,
    c5 envBase stNoModels ("cat") none none none none none rfl rfl,
    c6 envBase stNoModels [5] none none none false rfl rfl,
    c7 envBase stNoModels ("hey") none none none none rfl rfl,
    ?_, ?_, ?_, ?_⟩
  · refine c8 envBase stOk [1] ("d") none ("text") none none none none
      ("gpt-v") ("responses.create") pWVision rfl ?_
    have hE : (analyze_image envBase stOk [1] ("d") none ("text") none none none none).2.1 =
        [NetEvent.providerCall ("responses.create") pWVision] := rfl
    rw [hE]
    exact List.mem_singleton.mpr rfl
  · refine c9 envBase stOk ("cat") none none none none none
      ("img-1") ("images.generate") pWImage rfl ?_
    have hE : (generate_image envBase stOk ("cat") none none none none none).2.1 =
        [NetEvent.providerCall ("images.generate") pWImage] := rfl
    rw [hE]
    exact List.mem_singleton.mpr rfl
  · refine c10 envBase stOk [5] none none none false
      ("whisper") ("audio.transcriptions.create") pWStt rfl ?_
    have hE : (transcribe_audio envBase stOk [5] none none none false).2.1 =
        [NetEvent.providerCall ("audio.transcriptions.create") pWStt] := rfl
    rw [hE]
    exact List.mem_singleton.mpr rfl
  · refine c11 envBase stOk ("hey") none none none none
      ("tts-1") ("audio.speech.create") pWTts rfl ?_
    have hE : (text_to_speech envBase stOk ("hey") none none none none).2.1 =
        [NetEvent.providerCall ("audio.speech.create") pWTts] := rfl
    rw [hE]
    exact List.mem_singleton.mpr rfl

/-- C9 counterexample: in `generate_image`'s URL path the clock starts at 0,
the provider call ends at 100 and the usable image bytes are only obtained
at 150, after the secondary fetch - yet `durationMs` is 100.  The claim that
the duration measures exactly the window "from just before the network call
to just after a usable response is obtained" is therefore false: the
secondary network fetch that produces the usable bytes lies outside the
measured window. -/
theorem C9_duration_counterexample :
    generate_image envUrl stOk ("cat") none none none none none =
      (Except.ok ⟨[9, 8, 7], 100⟩,
       [NetEvent.providerCall ("images.generate") pWImage, NetEvent.httpGet ("x.test/img")],
       150) ∧
    (100 : Int) ≠ 150 :=
  ⟨rfl, by decide⟩

/-- C9 amended: `durationMs` is non-negative and equals the duration of the
primary provider call of the successful attempt; response extraction and, in
image generation's URL path, the secondary HTTP fetch are excluded from the
measured window (the events and final clock of the generation cases make the
exclusion explicit). -/
theorem C9_duration_amended :
    (∀ (env : Env) (st : Settings) (ib : List Nat) (instr : String) (ov : Option String)
      (rf : String) (js : Option Value) (mot : Option Nat) (dt lg : Option String)
      (m : String) (resp : AnalyzeResponse) (t : String),
      require_model ov st.openai_model_vision ("vision") = Except.ok m →
      ¬ rf = ("json") →
      env.analyzeResp 0 = Except.ok resp →
      analyze_output_text resp = Except.ok t →
      (analyze_image env st ib instr ov rf js mot dt lg).1 =
        Except.ok ⟨t, none, (env.callDur 0 : Int)⟩ ∧ 0 ≤ (env.callDur 0 : Int)) ∧
    (∀ (env : Env) (st : Settings) (ab : List Nat) (ov lang pr : Option String) (ts : Bool)
      (m : String) (resp : TranscribeResponse) (tx : Option Value),
      require_model ov st.openai_model_stt ("transcription") = Except.ok m →
      env.transcribeResp 0 = Except.ok resp →
      transcribe_text resp = Except.ok tx →
      (transcribe_audio env st ab ov lang pr ts).1 =
        Except.ok ⟨tx, transcribe_segments resp, (env.callDur 0 : Int)⟩ ∧
        0 ≤ (env.callDur 0 : Int)) ∧
    (∀ (env : Env) (st : Settings) (t : String) (ov voice fmt : Option String)
      (sp : Option Rat) (m : String) (resp : SpeechResponse) (bs : List Nat),
      require_model ov st.openai_model_tts ("tts") = Except.ok m →
      env.speechResp 0 = Except.ok resp →
      extract_binary resp = Except.ok bs →
      (text_to_speech env st t ov voice fmt sp).1 =
        Except.ok ⟨bs, (env.callDur 0 : Int)⟩ ∧ 0 ≤ (env.callDur 0 : Int)) ∧
    (∀ (env : Env) (st : Settings) (prompt : String) (ov size bg q ofmt : Option String)
      (m : String) (resp : ImagesResponse) (item : ImageItem) (rest : List ImageItem)
      (s : String) (bs : List Nat),
      require_model ov st.openai_model_image ("image") = Except.ok m →
      env.imageResp 0 = Except.ok resp →
      resp.data = item :: rest →
      flattenAttr item.b64_json = some s →
      b64decode s = Except.ok bs →
      generate_image env st prompt ov size bg q ofmt =
        (Except.ok ⟨bs, (env.callDur 0 : Int)⟩,
         [NetEvent.providerCall ("images.generate") (generate_params m prompt size bg q)],
         (env.callDur 0 : Int))) ∧
    (∀ (env : Env) (st : Settings) (prompt : String) (ov size bg q ofmt : Option String)
      (m : String) (resp : ImagesResponse) (item : ImageItem) (rest : List ImageItem)
      (u : String) (fr : FetchResponse),
      require_model ov st.openai_model_image ("image") = Except.ok m →
      env.imageResp 0 = Except.ok resp →
      resp.data = item :: rest →
      flattenAttr item.b64_json = none →
      flattenAttr item.url = some u →
      env.fetchUrl 0 u = Except.ok fr →
      200 ≤ fr.status ∧ fr.status < 300 →
      generate_image env st prompt ov size bg q ofmt =
        (Except.ok ⟨fr.content, (env.callDur 0 : Int)⟩,
         [NetEvent.providerCall ("images.generate") (generate_params m prompt size bg q),
          NetEvent.httpGet u],
         (env.callDur 0 : Int) + (env.fetchDur : Int))) := by
  refine ⟨?_, ?_, ?_, ?_, ?_⟩
  · intro env st ib instr ov rf js mot dt lg m resp t hm hrf hresp htext
    refine ⟨?_, Int.natCast_nonneg _⟩
    unfold analyze_image
    rw [show (3 : Nat) = 1 + 2 from rfl, tenacityLoop_succ_succ]
    simp [analyze_body, hm, hrf, hresp, htext]
  · intro env st ab ov lang pr ts m resp tx hm hresp htext
    refine ⟨?_, Int.natCast_nonneg _⟩
    unfold transcribe_audio
    rw [show (3 : Nat) = 1 + 2 from rfl, tenacityLoop_succ_succ]
    simp [transcribe_body, hm, hresp, htext]
  · intro env st t ov voice fmt sp m resp bs hm hresp hext
    refine ⟨?_, Int.natCast_nonneg _⟩
    unfold text_to_speech
    rw [show (3 : Nat) = 1 + 2 from rfl, tenacityLoop_succ_succ]
    simp [text_to_speech_body, hm, hresp, hext]
  · intro env st prompt ov size bg q ofmt m resp item rest s bs hm hresp hdata hjoin hdec
    unfold generate_image
    rw [show (3 : Nat) = 1 + 2 from rfl, tenacityLoop_succ_succ]
    simp [generate_body, hm, hresp, hdata, isSome_of_flattenAttr_some _ _ hjoin, hjoin, hdec]
  · intro env st prompt ov size bg q ofmt m resp item rest u fr hm hresp hdata hjoin hurl
      hfetch hst
    unfold generate_image
    rw [show (3 : Nat) = 1 + 2 from rfl, tenacityLoop_succ_succ]
    simp [generate_body, hm, hresp, hdata, isSome_of_flattenAttr_some _ _ hurl,
      isSome_guard_join, hjoin, hurl, hfetch, hst]

/-- Witness for the amended C9: at the concrete environments every result's
duration is 100 ms - the provider-call time - while the URL-path generation
finishes at clock 150 (its 50 ms fetch is outside the window). -/
theorem C9_duration_amended_witness :
    (analyze_image envBase stOk [1] ("d") none ("text") none none none none).1 =
      Except.ok ⟨("hi"), none, 100⟩ ∧
    (transcribe_audio envBase stOk [5] none none none false).1 =
      Except.ok ⟨some (Value.vStr ("hola")), some (Value.vList []), 100⟩ ∧
    (text_to_speech envBase stOk ("hey") none none none none).1 =
      Except.ok ⟨[1, 2, 3], 100⟩ ∧
    generate_image envBase stOk ("cat") none none none none none =
      (Except.ok ⟨[77, 97, 110], 100⟩,
       [NetEvent.providerCall ("images.generate") pWImage], 100) ∧
    generate_image envUrl stOk ("cat") none none none none none =
      (Except.ok ⟨[9, 8, 7], 100⟩,
       [NetEvent.providerCall ("images.generate") pWImage, NetEvent.httpGet ("x.test/img")],
       150) := by
  obtain ⟨c1, c2, c3, c4, c5⟩ := C9_duration_amended
  exact ⟨(c1 envBase stOk [1] ("d") none ("text") none none none none ("gpt-v") _ ("hi")
      rfl (by decide) rfl rfl).1,
    (c2 envBase stOk [5] none none none false ("whisper") _ _ rfl rfl rfl).1,
    (c3 envBase stOk ("hey") none none none none ("tts-1") _ [1, 2, 3] rfl rfl rfl).1,
    c4 envBase stOk ("cat") none none none none none ("img-1") _ _ _ ("TWFu") [77, 97, 110]
      rfl rfl rfl rfl rfl,
    c5 envUrl stOk ("cat") none none none none none ("img-1") _ _ _ ("x.test/img")
      ⟨200, [9, 8, 7]⟩ rfl rfl rfl rfl rfl rfl (by decide)⟩

end M3cp
